import Mathlib

/-!
Shallow embedding of `src/lab_3.py` (class `VHIAnalysis`): the region tables,
the filename scheme of `load_data`, the per-file parser `process_csv`, the
dataset builder `data_frame`, and the query function `filter_data`.

Numeric CSV fields (SMN, SMT, VCI, TCI, VHI) are modelled as `Rat`; the raw
`Year` column is the string pandas reads it as (the first data row carries a
textual prefix, which makes the whole column `object` dtype).
-/

/-- `self.regions_true_id`: canonical region id → display name. -/
def regions_true_id : List (Nat × String) :=
  [(1, "Вінницька"), (2, "Волинська"), (3, "Дніпропетровська"), (4, "Донецька"),
   (5, "Житомирська"), (6, "Закарпатська"), (7, "Запорізька"), (8, "Івано-Франківська"),
   (9, "Київська"), (10, "Кіровоградська"), (11, "Луганська"), (12, "Львівська"),
   (13, "Миколаївська"), (14, "Одеська"), (15, "Полтавська"), (16, "Рівненська"),
   (17, "Сумська"), (18, "Тернопільська"), (19, "Харківська"), (20, "Херсонська"),
   (21, "Хмельницька"), (22, "Черкаська"), (23, "Чернівецька"), (24, "Чернігівська"),
   (25, "Республіка Крим")]

/-- `self.region_names_to_id = {v: k for k, v in self.regions_true_id.items()}`,
used as `.get(region)`: name → canonical id, `none` when absent. -/
def region_names_to_id (name : String) : Option Nat :=
  (regions_true_id.find? (fun p => p.2 == name)).map (fun p => p.1)

/-- The `region_translation` dict of `data_frame` (lines 69-73), verbatim. -/
def region_translation : List (Nat × Nat) :=
  [(1, 22), (2, 24), (3, 23), (4, 25), (5, 3), (6, 4), (7, 8), (8, 19), (9, 20), (10, 21),
   (11, 9), (13, 10), (14, 11), (15, 12), (16, 13), (17, 14), (18, 15), (19, 16), (21, 17),
   (22, 18), (23, 6), (24, 1), (25, 2), (26, 6), (27, 5)]

/-- `Series.replace(region_translation)` on one value: keys are replaced by
their image, values that are not keys pass through unchanged. -/
def translateRegion (n : Nat) : Nat :=
  match region_translation.find? (fun p => p.1 == n) with
  | some p => p.2
  | none => n

/-- Python `str.split(sep)` on a character list: split at every separator
occurrence, keeping empty segments (`"a__b".split('_') == ['a', '', 'b']`). -/
def pySplitAux (sep : Char) : List Char → List Char → List (List Char)
  | [], cur => [cur.reverse]
  | c :: cs, cur =>
    if c = sep then cur.reverse :: pySplitAux sep cs []
    else pySplitAux sep cs (c :: cur)

/-- Python `s.split(sep)`. -/
def pySplit (sep : Char) (s : List Char) : List (List Char) :=
  pySplitAux sep s []

/-- Python `int(s)` on the strings reachable here: succeeds exactly on
non-empty all-digit strings, yielding their decimal value. -/
def pyInt (s : List Char) : Option Nat :=
  if s ≠ [] ∧ s.all Char.isDigit then
    some (s.foldl (fun acc c => 10 * acc + (c.toNat - 48)) 0)
  else none

/-- `int(filename.split('_')[2])` of `process_csv` (line 53), with `none` for
the `IndexError`/`ValueError` exceptions. -/
def extract_region_num (filename : String) : Option Nat :=
  match (pySplit '_' filename.data).get? 2 with
  | some seg => pyInt seg
  | none => none

/-- `file_name = f'vhi_id__{province_code}__{current_date}.csv'` of
`load_data` (line 31). -/
def file_name (province_code : Nat) (current_date : String) : String :=
  "vhi_id__" ++ toString province_code ++ "__" ++ current_date ++ ".csv"

/-- One data row as `pd.read_csv(file_path, header=1, names=self.columns)`
yields it: the `Year` column is `object` (string) dtype because the first
data row embeds a textual prefix; the numeric columns are exact values. -/
structure RawRow where
  Year : String
  Week : Int
  SMN : Rat
  SMT : Rat
  VCI : Rat
  TCI : Rat
  VHI : Rat
  empty : String
  deriving DecidableEq, Repr

/-- A row of the frame `process_csv` returns: `empty` dropped, `region_num`
inserted in front, `Week` cast to int. -/
structure DataRow where
  region_num : Nat
  Year : String
  Week : Int
  SMN : Rat
  SMT : Rat
  VCI : Rat
  TCI : Rat
  VHI : Rat
  deriving DecidableEq, Repr

/-- `data.at[0, 'Year'] = data.at[0, 'Year'][9:]` (line 55): the first row's
`Year` is replaced by its substring from character 9 on (Python slicing past
the end yields the empty string, as `String.drop` does). -/
def stripYearRow (r : RawRow) : RawRow := { r with Year := r.Year.drop 9 }

/-- Line 55 applied to the frame: only the row at label 0 is touched. -/
def stripFirstYear : List RawRow → List RawRow
  | [] => []
  | r :: rs => stripYearRow r :: rs

/-- Lines 58-60: drop the `empty` column, insert `region_num` in front,
cast `Week` to int (the modelled rows already hold it as an integer). -/
def toDataRow (region_num : Nat) (r : RawRow) : DataRow :=
  { region_num := region_num, Year := r.Year, Week := r.Week,
    SMN := r.SMN, SMT := r.SMT, VCI := r.VCI, TCI := r.TCI, VHI := r.VHI }

/-- Lines 55-60 of `process_csv` on a non-empty frame: strip the first `Year`,
drop the last row, keep rows with `VHI != -1`, then the per-row column
edits of `toDataRow`. -/
def processRows (region_num : Nat) (rows : List RawRow) : List DataRow :=
  (((stripFirstYear rows).dropLast).filter (fun r => r.VHI != -1)).map
    (toDataRow region_num)

/-- The exceptions `process_csv` can raise. -/
inductive ParseErr where
  /-- `int(filename.split('_')[2])` raised `IndexError`/`ValueError`. -/
  | badRegion
  /-- `data.at[0, 'Year']` on an empty frame raised `KeyError`. -/
  | emptyFile
  deriving DecidableEq, Repr

/-- A raw CSV file: its basename and its data rows (everything after the
line that `header=1` consumes). -/
structure RawFile where
  filename : String
  rows : List RawRow
  deriving DecidableEq, Repr

/-- `process_csv` (lines 51-61): extract the region id from the filename,
then run the row pipeline; exceptions become `Except.error`. -/
def process_csv (f : RawFile) : Except ParseErr (List DataRow) :=
  match extract_region_num f.filename with
  | none => .error .badRegion
  | some region_num =>
    match f.rows with
    | [] => .error .emptyFile
    | _ :: _ => .ok (processRows region_num f.rows)

/-- `DataFrame.drop_duplicates()`: keep the first occurrence of each row
value, drop later exact duplicates. -/
def dropDupAux [DecidableEq α] (seen : List α) : List α → List α
  | [] => []
  | x :: xs => if x ∈ seen then dropDupAux seen xs else x :: dropDupAux (x :: seen) xs

/-- `DataFrame.drop_duplicates()` over a row list. -/
def drop_duplicates [DecidableEq α] (l : List α) : List α := dropDupAux [] l

/-- The exceptions `data_frame` can raise. -/
inductive BuildErr where
  /-- An exception from `process_csv` propagates out of the comprehension
  on line 64 and aborts the whole build. -/
  | parse (e : ParseErr)
  /-- `pd.concat([])` on line 66 raises `ValueError` when no file matched. -/
  | concatEmpty
  deriving DecidableEq, Repr

/-- The list comprehension `[process_csv(file) for file in csv_files]`:
evaluated left to right, the first exception aborts it. -/
def mapExcept (f : α → Except ε β) : List α → Except ε (List β)
  | [] => .ok []
  | x :: xs =>
    match f x with
    | .error e => .error e
    | .ok y =>
      match mapExcept f xs with
      | .error e => .error e
      | .ok ys => .ok (y :: ys)

/-- `data_frame` (lines 50-76): parse every file, concatenate,
`drop_duplicates`, drop rows with `region_num` in {12, 20}, then apply
`region_translation` via `replace`. -/
def data_frame (csv_files : List RawFile) : Except BuildErr (List DataRow) :=
  match mapExcept process_csv csv_files with
  | .error e => .error (.parse e)
  | .ok [] => .error .concatEmpty
  | .ok (d :: ds) =>
    .ok ((((drop_duplicates (d :: ds).flatten).filter
        (fun r => !(r.region_num == 12 || r.region_num == 20))).map
        (fun r => { r with region_num := translateRegion r.region_num })))

/-- A row of the frame `filter_data` receives: `run_analysis` has already
coerced `Year` to numeric (line 115) and dropped non-numeric rows. -/
structure QRow where
  region_num : Nat
  Year : Int
  Week : Int
  SMN : Rat
  SMT : Rat
  VCI : Rat
  TCI : Rat
  VHI : Rat
  deriving DecidableEq, Repr

/-- The `parameter` argument: the `st.selectbox` on line 123 offers exactly
VCI, TCI and VHI. -/
inductive Param where
  | VCI
  | TCI
  | VHI
  deriving DecidableEq, Repr

/-- Column selection `df[parameter]` on one row. -/
def paramValue : Param → QRow → Rat
  | .VCI, r => r.VCI
  | .TCI, r => r.TCI
  | .VHI, r => r.VHI

/-- The boolean mask of lines 80-84: `Year.between && Week.between &&
region_num == region_num_selected`; comparing an int with `None` is `False`
on every row, so an unresolved region name matches nothing. -/
def rowMask (years_interval weeks_interval : Int × Int) (sel : Option Nat) (r : QRow) : Bool :=
  (decide (years_interval.1 ≤ r.Year) && decide (r.Year ≤ years_interval.2)) &&
  (decide (weeks_interval.1 ≤ r.Week) && decide (r.Week ≤ weeks_interval.2)) &&
  (match sel with
   | none => false
   | some n => r.region_num == n)

/-- Insertion step of the comparison sort modelling `sort_values`. -/
def insertBy (le : QRow → QRow → Bool) (x : QRow) : List QRow → List QRow
  | [] => [x]
  | y :: ys => if le x y then x :: y :: ys else y :: insertBy le x ys

/-- Comparison sort by `le`. -/
def sortByLe (le : QRow → QRow → Bool) : List QRow → List QRow
  | [] => []
  | x :: xs => insertBy le x (sortByLe le xs)

/-- `DataFrame.sort_values(by=parameter, ascending=...)`, modelled as a
comparison sort on the chosen column. The source leaves `kind` at its
default (quicksort), so the relative order of tied rows is not specified by
the code; no theorem below relies on the tie order of this model. -/
def sort_values (param : Param) (ascending : Bool) (l : List QRow) : List QRow :=
  sortByLe
    (fun a b =>
      if ascending then decide (paramValue param a ≤ paramValue param b)
      else decide (paramValue param b ≤ paramValue param a)) l

/-- `filter_data` (lines 78-91): resolve the region name, apply the mask,
then sort according to the `sort_option` string. -/
def filter_data (df : List QRow) (years_interval weeks_interval : Int × Int)
    (region : String) (sort_option : String) (parameter : Param) : List QRow :=
  let region_num_selected := region_names_to_id region
  let filtered_data := df.filter (rowMask years_interval weeks_interval region_num_selected)
  if sort_option = "За зростанням" then sort_values parameter true filtered_data
  else if sort_option = "За спаданням" then sort_values parameter false filtered_data
  else filtered_data

/-- A well-formed data row: `VHI ≠ -1`, and the first-row `Year` carries the
9-character prefix the observed source format embeds. -/
def rowHead : RawRow :=
  { Year := "<tt><pre>1982", Week := 2, SMN := 5, SMT := 25, VCI := 48, TCI := 61,
    VHI := 55, empty := "" }

/-- The footer/sentinel row a raw file ends with. -/
def rowFoot : RawRow :=
  { Year := "2024", Week := 52, SMN := 0, SMT := 0, VCI := 0, TCI := 0,
    VHI := -1, empty := "" }

/-- A raw file as `load_data` used to name it (single underscores), carrying
file-local region id `n` and a typical head row plus footer. -/
def fileLocal (n : Nat) : RawFile :=
  { filename := "vhi_id_" ++ toString n ++ "_2024.csv", rows := [rowHead, rowFoot] }

/-- The dataset row `fileLocal n` contributes, after region replacement. -/
def builtRow (n : Nat) : DataRow :=
  { region_num := n, Year := "1982", Week := 2, SMN := 5, SMT := 25, VCI := 48,
    TCI := 61, VHI := 55 }

theorem dropDupAux_subset [DecidableEq α] (seen : List α) (l : List α) :
    ∀ x ∈ dropDupAux seen l, x ∈ l := by
  induction l generalizing seen with
  | nil => simp [dropDupAux]
  | cons a as ih =>
    intro x hx
    by_cases h : a ∈ seen
    · rw [dropDupAux, if_pos h] at hx
      exact List.mem_cons_of_mem _ (ih seen x hx)
    · rw [dropDupAux, if_neg h] at hx
      rcases List.mem_cons.mp hx with rfl | hx'
      · exact List.mem_cons_self _ _
      · exact List.mem_cons_of_mem _ (ih _ x hx')

theorem dropDupAux_nodup [DecidableEq α] (seen : List α) (l : List α) :
    (dropDupAux seen l).Nodup ∧ ∀ x ∈ dropDupAux seen l, x ∉ seen := by
  induction l generalizing seen with
  | nil => simp [dropDupAux]
  | cons a as ih =>
    by_cases h : a ∈ seen
    · rw [dropDupAux, if_pos h]
      exact ih seen
    · rw [dropDupAux, if_neg h]
      obtain ⟨hnd, hns⟩ := ih (a :: seen)
      refine ⟨List.nodup_cons.mpr ⟨fun hmem => hns a hmem (List.mem_cons_self a seen), hnd⟩, ?_⟩
      intro x hx hxs
      rcases List.mem_cons.mp hx with rfl | hx'
      · exact h hxs
      · exact hns x hx' (List.mem_cons_of_mem _ hxs)

theorem drop_duplicates_nodup [DecidableEq α] (l : List α) :
    (drop_duplicates l).Nodup :=
  (dropDupAux_nodup [] l).1

theorem drop_duplicates_subset [DecidableEq α] (l : List α) :
    ∀ x ∈ drop_duplicates l, x ∈ l :=
  dropDupAux_subset [] l

theorem mapExcept_ok_mem {f : α → Except ε β} :
    ∀ {xs : List α} {ys : List β}, mapExcept f xs = .ok ys →
      ∀ y ∈ ys, ∃ x ∈ xs, f x = .ok y := by
  intro xs
  induction xs with
  | nil =>
    intro ys h y hy
    rw [mapExcept] at h
    cases h
    cases hy
  | cons a as ih =>
    intro ys h y hy
    rw [mapExcept] at h
    cases hfa : f a with
    | error e => rw [hfa] at h; cases h
    | ok b =>
      rw [hfa] at h
      cases hm : mapExcept f as with
      | error e => rw [hm] at h; cases h
      | ok bs =>
        rw [hm] at h
        cases h
        rcases List.mem_cons.mp hy with rfl | hy'
        · exact ⟨a, List.mem_cons_self _ _, hfa⟩
        · obtain ⟨x, hx, hfx⟩ := ih hm y hy'
          exact ⟨x, List.mem_cons_of_mem _ hx, hfx⟩

theorem mapExcept_ok_of_forall {f : α → Except ε β} :
    ∀ {xs : List α}, (∀ x ∈ xs, ∃ y, f x = .ok y) →
      ∃ ys, mapExcept f xs = .ok ys ∧ ys.length = xs.length := by
  intro xs
  induction xs with
  | nil => intro _; exact ⟨[], rfl, rfl⟩
  | cons a as ih =>
    intro h
    obtain ⟨b, hb⟩ := h a (List.mem_cons_self _ _)
    obtain ⟨bs, hbs, hlen⟩ := ih (fun x hx => h x (List.mem_cons_of_mem _ hx))
    refine ⟨b :: bs, ?_, by simp [hlen]⟩
    rw [mapExcept, hb, hbs]

/-- How every successful build decomposes: a duplicate-free list of parsed
rows, none with pre-remap region 12 or 20, each traceable to a parsed file,
to which the region replacement is applied last. -/
theorem data_frame_ok_structure (files : List RawFile) (out : List DataRow)
    (h : data_frame files = .ok out) :
    ∃ pre : List DataRow, pre.Nodup ∧
      (∀ r ∈ pre, r.region_num ≠ 12 ∧ r.region_num ≠ 20) ∧
      (∀ r ∈ pre, ∃ f ∈ files, ∃ rs, process_csv f = .ok rs ∧ r ∈ rs) ∧
      out = pre.map (fun r => { r with region_num := translateRegion r.region_num }) := by
  rw [data_frame] at h
  cases hm : mapExcept process_csv files with
  | error e => rw [hm] at h; cases h
  | ok dfs =>
    rw [hm] at h
    cases dfs with
    | nil => cases h
    | cons d ds =>
      refine ⟨(drop_duplicates (d :: ds).flatten).filter
          (fun r => !(r.region_num == 12 || r.region_num == 20)), ?_, ?_, ?_, ?_⟩
      · exact (drop_duplicates_nodup _).filter _
      · intro r hr
        have := List.of_mem_filter hr
        simp only [Bool.not_eq_true', beq_eq_false_iff_ne, ne_eq, Bool.or_eq_false_iff] at this
        simpa using this
      · intro r hr
        have hflat := drop_duplicates_subset _ r (List.mem_of_mem_filter hr)
        obtain ⟨l, hl, hrl⟩ := List.mem_flatten.mp hflat
        obtain ⟨f, hf, hpf⟩ := mapExcept_ok_mem hm l hl
        exact ⟨f, hf, l, hpf, hrl⟩
      · cases h; rfl

/-- The fields of a raw row that lines 55-60 never modify (everything except
`Year` and the dropped `empty` column). -/
def coreOfRaw (r : RawRow) : Int × Rat × Rat × Rat × Rat × Rat :=
  (r.Week, r.SMN, r.SMT, r.VCI, r.TCI, r.VHI)

/-- The same field tuple read off a parsed row. -/
def coreOfData (d : DataRow) : Int × Rat × Rat × Rat × Rat × Rat :=
  (d.Week, d.SMN, d.SMT, d.VCI, d.TCI, d.VHI)

/-- What the spec prescribes for the first year field: strip exactly the
leading non-digit characters, however many there are. Stated from the
spec's words, to compare with the code's fixed `[9:]` slice. -/
def specStripLeadingNonDigits (s : String) : String :=
  String.mk (s.data.dropWhile (fun c => !c.isDigit))

/-- A first row whose year prefix has length 1 rather than 9. -/
def c5Row : RawRow :=
  { Year := "X1990", Week := 1, SMN := 1, SMT := 1, VCI := 40, TCI := 40,
    VHI := 50, empty := "" }

/-- A well-formed file the build should keep. -/
def goodFile : RawFile := fileLocal 7

/-- A file whose name yields no region id: `"vhi_data.csv".split('_')` has
no third segment, so line 53 raises `IndexError`. -/
def badFile : RawFile := { filename := "vhi_data.csv", rows := [rowHead, rowFoot] }

/-- A query row for region 9 (Київська), year 1990, week 10. -/
def qRowK : QRow :=
  { region_num := 9, Year := 1990, Week := 10, SMN := 1, SMT := 1, VCI := 40,
    TCI := 40, VHI := 50 }

theorem drop_nine_append (p y : String) (hp : p.length = 9) : (p ++ y).drop 9 = y := by
  rw [String.drop_eq]
  have hd : (p ++ y).1 = p.1 ++ y.1 := String.data_append _ _
  have hl : p.1.length = 9 := hp
  rw [hd, ← hl, List.drop_left]

/-- On the unmodified columns, the row pipeline is exactly: drop the last
row, then drop the rows with `VHI == -1`. -/
theorem processRows_core (n : Nat) (r0 : RawRow) (l : List RawRow) (hl : l ≠ []) :
    (processRows n (r0 :: l)).map coreOfData =
      (((r0 :: l).dropLast).filter (fun r => r.VHI != -1)).map coreOfRaw := by
  have hdl : (stripYearRow r0 :: l).dropLast = stripYearRow r0 :: l.dropLast :=
    List.dropLast_cons_of_ne_nil hl
  have hdl2 : (r0 :: l).dropLast = r0 :: l.dropLast :=
    List.dropLast_cons_of_ne_nil hl
  have hvhi : ((stripYearRow r0).VHI != -1) = (r0.VHI != -1) := rfl
  rw [processRows, stripFirstYear, hdl, hdl2, List.filter_cons, List.filter_cons, hvhi]
  have htail : ((l.dropLast.filter (fun r => r.VHI != -1)).map (toDataRow n)).map coreOfData
      = (l.dropLast.filter (fun r => r.VHI != -1)).map coreOfRaw := by
    rw [List.map_map]
    rfl
  by_cases hp : (r0.VHI != -1) = true
  · rw [if_pos hp, if_pos hp, List.map_cons, List.map_cons]
    exact congrArg₂ _ rfl htail
  · rw [if_neg hp, if_neg hp]
    exact htail

/-- Claim C1 is false on the code: the {12, 20} exclusion on line 67 runs
before the remap on line 74, and the remap sends file-local id 15 to
canonical id 12, so a build from a local-15 file keeps a record whose
post-remap canonical id is 12. -/
theorem c1_counterexample :
    data_frame [fileLocal 15] = .ok [builtRow 12] ∧
    (builtRow 12).region_num = 12 ∧ translateRegion 15 = 12 :=
  ⟨rfl, rfl, rfl⟩

/-- Claim C1 amended: the exclusion applies to the pre-remap file-local id;
every record whose file-local region id is 12 or 20 is dropped, so a build
whose files all carry local ids 12/20 yields the empty dataset. -/
theorem c1_excluded_pre_remap (files : List RawFile)
    (hne : files ≠ [])
    (h : ∀ f ∈ files, ∃ rs, process_csv f = .ok rs ∧
          ∀ r ∈ rs, r.region_num = 12 ∨ r.region_num = 20) :
    data_frame files = .ok [] := by
  obtain ⟨dfs, hdfs, hlen⟩ := mapExcept_ok_of_forall (f := process_csv)
      (fun f hf => (h f hf).elim fun rs hrs => ⟨rs, hrs.1⟩)
  rw [data_frame, hdfs]
  cases dfs with
  | nil =>
    cases files with
    | nil => exact absurd rfl hne
    | cons f fs => cases hlen
  | cons d ds =>
    have hall : ∀ r ∈ (d :: ds).flatten, r.region_num = 12 ∨ r.region_num = 20 := by
      intro r hr
      obtain ⟨l, hl, hrl⟩ := List.mem_flatten.mp hr
      obtain ⟨f, hf, hpf⟩ := mapExcept_ok_mem hdfs l hl
      obtain ⟨rs, hrs, hrall⟩ := h f hf
      rw [hpf] at hrs
      cases hrs
      exact hrall r hrl
    have hfilter : (drop_duplicates (d :: ds).flatten).filter
        (fun r => !(r.region_num == 12 || r.region_num == 20)) = [] := by
      apply List.filter_eq_nil_iff.mpr
      intro r hr
      rcases hall r (drop_duplicates_subset _ r hr) with h12 | h20
      · simp [h12]
      · simp [h20]
    show Except.ok ((((drop_duplicates (d :: ds).flatten).filter
        (fun r => !(r.region_num == 12 || r.region_num == 20))).map
        (fun r => { r with region_num := translateRegion r.region_num }))) = Except.ok []
    rw [hfilter]
    rfl

/-- Witness for the amended C1: a single file with file-local id 12 parses
fine yet contributes nothing to the build. -/
theorem c1_excluded_pre_remap_witness : data_frame [fileLocal 12] = .ok [] :=
  c1_excluded_pre_remap [fileLocal 12] (by simp)
    (by
      intro f hf
      rw [List.mem_singleton] at hf
      subst hf
      exact ⟨processRows 12 (fileLocal 12).rows, rfl, by decide⟩)

/-- Claim C2 is false on the code: `drop_duplicates` on line 66 runs before
the remap on line 74, and both file-local ids 23 and 26 map to canonical
id 6, so two files with identical rows under those two local ids leave two
identical canonical records in the output. -/
theorem c2_counterexample :
    data_frame [fileLocal 23, fileLocal 26] = .ok [builtRow 6, builtRow 6] ∧
    ¬ ([builtRow 6, builtRow 6] : List DataRow).Nodup :=
  ⟨rfl, by decide⟩

/-- Claim C2 amended: deduplication happens before region reconciliation:
the output is the image under the remap of a duplicate-free list, so exact
duplicates that agree on the file-local id are removed, but records that
become equal only after remapping survive in both copies. -/
theorem c2_dedup_pre_remap (files : List RawFile) (out : List DataRow)
    (h : data_frame files = .ok out) :
    ∃ pre : List DataRow, pre.Nodup ∧
      out = pre.map (fun r => { r with region_num := translateRegion r.region_num }) := by
  obtain ⟨pre, hnd, _, _, hmap⟩ := data_frame_ok_structure files out h
  exact ⟨pre, hnd, hmap⟩

/-- Witness for the amended C2 at a concrete one-file build. -/
theorem c2_dedup_pre_remap_witness :
    ∃ pre : List DataRow, pre.Nodup ∧
      [builtRow 23] = pre.map (fun r => { r with region_num := translateRegion r.region_num }) :=
  c2_dedup_pre_remap [fileLocal 3] [builtRow 23] rfl

/-- Claim C3 is contradicted by the code: with zero CSV files the list
comprehension yields `[]` and `pd.concat([])` on line 66 raises
`ValueError: No objects to concatenate`, instead of returning an empty
dataset as the spec requires. -/
theorem c3_empty_folder_raises : data_frame [] = .error .concatEmpty := rfl

/-- Claim C4 is contradicted by the code: the comprehension on line 64 has
no exception handling, so one file whose name yields no region id aborts
the whole build, even though the other file parses fine. -/
theorem c4_bad_file_aborts_build :
    process_csv goodFile = .ok [builtRow 7] ∧
    data_frame [goodFile, badFile] = .error (.parse .badRegion) :=
  ⟨rfl, rfl⟩

/-- Claim C5 is false on the code: line 55 slices a hard-coded `[9:]`, so a
first-row year with a 1-character non-numeric prefix comes out as `""`
rather than as its numeric part `"1990"`. -/
theorem c5_counterexample :
    processRows 5 [c5Row, rowFoot] =
      [{ region_num := 5, Year := "", Week := 1, SMN := 1, SMT := 1, VCI := 40,
         TCI := 40, VHI := 50 }] ∧
    specStripLeadingNonDigits "X1990" = "1990" ∧ ("" : String) ≠ "1990" :=
  ⟨rfl, by decide, by decide⟩

/-- Claim C5 amended: the parser strips exactly the first 9 characters of
the first record's year field, so the parsed first-record year equals the
numeric part exactly when the textual prefix has length 9. -/
theorem c5_strips_nine_chars (region_num : Nat) (p y : String) (r0 : RawRow)
    (rs : List RawRow) (hp : p.length = 9) (hY : r0.Year = p ++ y)
    (hrs : rs ≠ []) (hvhi : r0.VHI ≠ -1) :
    (processRows region_num (r0 :: rs)).head?.map DataRow.Year = some y := by
  rw [processRows, stripFirstYear, List.dropLast_cons_of_ne_nil hrs, List.filter_cons]
  have hp' : ((stripYearRow r0).VHI != -1) = true := by
    simpa using hvhi
  rw [if_pos hp', List.map_cons, List.head?_cons, Option.map_some']
  show some ((r0.Year).drop 9) = some y
  rw [hY, drop_nine_append p y hp]

/-- Witness for the amended C5 on the observed 9-character prefix. -/
theorem c5_strips_nine_chars_witness :
    ("<tt><pre>" : String).length = 9 ∧ rowHead.Year = "<tt><pre>" ++ "1982" ∧
    ([rowFoot] : List RawRow) ≠ [] ∧ rowHead.VHI ≠ -1 ∧
    (processRows 9 [rowHead, rowFoot]).head?.map DataRow.Year = some "1982" :=
  ⟨by decide, by decide, by decide, by decide,
   c5_strips_nine_chars 9 "<tt><pre>" "1982" rowHead [rowFoot]
     (by decide) (by decide) (by decide) (by decide)⟩

/-- Claim C6: for a file whose name resolves to a region id and that has at
least two data rows, parsing succeeds, and on the untouched columns the
output is exactly the input rows minus the last row and minus the rows
whose VHI equals -1, in order. -/
theorem c6_parser_drops_exactly (f : RawFile) (region_num : Nat)
    (hreg : extract_region_num f.filename = some region_num)
    (h2 : 2 ≤ f.rows.length) :
    process_csv f = .ok (processRows region_num f.rows) ∧
    (processRows region_num f.rows).map coreOfData =
      ((f.rows.dropLast).filter (fun r => r.VHI != -1)).map coreOfRaw := by
  obtain ⟨r0, l, hrw⟩ : ∃ r0 l, f.rows = r0 :: l := by
    cases hr : f.rows with
    | nil => rw [hr] at h2; cases h2
    | cons a as => exact ⟨a, as, rfl⟩
  have hl : l ≠ [] := by
    intro h
    rw [hrw, h] at h2
    cases h2 with
    | step h' => cases h'
  constructor
  · rw [process_csv, hreg, hrw]
  · rw [hrw]
    exact processRows_core region_num r0 l hl

/-- Witness for C6 on a concrete two-row file. -/
theorem c6_parser_drops_exactly_witness :
    extract_region_num (fileLocal 7).filename = some 7 ∧
    2 ≤ (fileLocal 7).rows.length ∧
    (process_csv (fileLocal 7) = .ok (processRows 7 (fileLocal 7).rows) ∧
      (processRows 7 (fileLocal 7).rows).map coreOfData =
        (((fileLocal 7).rows.dropLast).filter (fun r => r.VHI != -1)).map coreOfRaw) :=
  ⟨by decide, by decide, c6_parser_drops_exactly (fileLocal 7) 7 (by decide) (by decide)⟩

/-- Claim C8 is false on the code: the remap is not the identity on the
already-canonical id 1 (it returns 22, which is not in {12, 20}), and the
records of a local-id-1 file are present in the build, not absent. -/
theorem c8_counterexample :
    translateRegion 1 = 22 ∧ (22 : Nat) ≠ 1 ∧
    translateRegion 1 ≠ 12 ∧ translateRegion 1 ≠ 20 ∧
    data_frame [fileLocal 1] = .ok [builtRow 22] :=
  ⟨rfl, by decide, by decide, by decide, rfl⟩

/-- Claim C8 amended: among ids 1-25 the remap is the identity exactly on
the two ids missing from `region_translation`, namely 12 and 20, and every
successful build is the remap image of a list with no pre-remap id 12 or
20, so all records carrying those file-local ids are absent. -/
theorem c8_identity_iff_unmapped :
    (∀ n, n < 26 → 1 ≤ n → (translateRegion n = n ↔ (n = 12 ∨ n = 20))) ∧
    (∀ (files : List RawFile) (out : List DataRow), data_frame files = .ok out →
      ∃ pre : List DataRow, (∀ r ∈ pre, r.region_num ≠ 12 ∧ r.region_num ≠ 20) ∧
        out = pre.map (fun r => { r with region_num := translateRegion r.region_num })) := by
  constructor
  · decide
  · intro files out h
    obtain ⟨pre, _, hno, _, hmap⟩ := data_frame_ok_structure files out h
    exact ⟨pre, hno, hmap⟩

/-- Witness for the amended C8: the id 12 instance of the finite part and a
concrete build for the second part. -/
theorem c8_identity_iff_unmapped_witness :
    (translateRegion 12 = 12 ↔ ((12 : Nat) = 12 ∨ (12 : Nat) = 20)) ∧
    ∃ pre : List DataRow, (∀ r ∈ pre, r.region_num ≠ 12 ∧ r.region_num ≠ 20) ∧
      [builtRow 22] = pre.map (fun r => { r with region_num := translateRegion r.region_num }) :=
  ⟨c8_identity_iff_unmapped.1 12 (by decide) (by decide),
   c8_identity_iff_unmapped.2 [fileLocal 1] [builtRow 22] rfl⟩

/-- Claim C9: a region name that does not resolve makes the mask false on
every row, so the query returns the empty list without error, and any
filter combination matching no rows likewise yields the empty list. -/
theorem c9_unresolved_region_empty :
    (∀ (df : List QRow) (yi wi : Int × Int) (region sort_option : String) (param : Param),
        region_names_to_id region = none →
        filter_data df yi wi region sort_option param = []) ∧
    (∀ (df : List QRow) (yi wi : Int × Int) (region sort_option : String) (param : Param),
        df.filter (rowMask yi wi (region_names_to_id region)) = [] →
        filter_data df yi wi region sort_option param = []) := by
  constructor
  · intro df yi wi region so param h
    have hfil : df.filter (rowMask yi wi (region_names_to_id region)) = [] := by
      rw [h]
      apply List.filter_eq_nil_iff.mpr
      intro r hr
      simp [rowMask]
    simp only [filter_data, hfil]
    split
    · rfl
    · split <;> rfl
  · intro df yi wi region so param h
    simp only [filter_data, h]
    split
    · rfl
    · split <;> rfl

/-- Witness for C9: an unknown region name, and a resolving name whose year
window matches no row. -/
theorem c9_unresolved_region_empty_witness :
    filter_data [qRowK] (1981, 2025) (1, 52) "Atlantis" "За зростанням" Param.VHI = [] ∧
    filter_data [qRowK] (2000, 2010) (1, 52) "Київська" "Без сортування" Param.VHI = [] :=
  ⟨c9_unresolved_region_empty.1 [qRowK] (1981, 2025) (1, 52) "Atlantis" "За зростанням"
      Param.VHI (by decide),
   c9_unresolved_region_empty.2 [qRowK] (2000, 2010) (1, 52) "Київська" "Без сортування"
      Param.VHI (by decide)⟩

/-- Claim C10 is contradicted by the code: `load_data` names files with a
double underscore on each side of the province code, so the third
underscore-separated segment that line 53 reads is always the empty string
and `int('')` raises `ValueError`; the extraction never round-trips for any
code or timestamp. -/
theorem c10_extraction_fails_on_fetcher_names (province_code : Nat) (current_date : String) :
    extract_region_num (file_name province_code current_date) = none := rfl
